import Mathlib

/-!
Verification development for the video-indexing engine.

The repository's Python core is shallowly embedded here: pure functions
become Lean functions, Python floats are modelled as rationals (the code
only adds, multiplies, divides and compares, never relies on rounding),
per-frame signals produced by the external vision collaborators (OpenCV
flow, feature tracking, HOG detection, channel statistics) are inputs to
the embedded classifiers, and the one genuinely nondeterministic construct
of the code, iteration over a Python set of strings, is modelled by an
explicit enumeration-order parameter constrained to be a permutation of
the distinct elements.
-/

namespace VideoIndex

/-- Arithmetic mean of a list of rationals, as np.mean computes it
(sum divided by length; the code only applies it to non-empty lists). -/
def npMean (xs : List ℚ) : ℚ := xs.sum / xs.length

/-- Population variance of a list of rationals, as np.var computes it
(mean of squared deviations from the mean). -/
def npVar (xs : List ℚ) : ℚ := npMean (xs.map (fun x => (x - npMean xs) ^ 2))

/-- Python max over a non-empty list with a key function: the first element
attaining the maximal key wins, in iteration order of the list. On the
empty list Python raises; the callers below all guard against it, and the
embedding returns the empty string there. -/
def pyMaxByCount (key : String → ℕ) : List String → String
  | [] => ""
  | x :: rest => rest.foldl (fun best y => if key y > key best then y else best) x

/-- Model of the expression max(set(xs), key=xs.count) used by every
categorical aggregator: `order xs` is the sequence in which Python's set of
the labels is iterated. CPython string hashing is randomized per process,
so that order is an arbitrary permutation of the distinct labels; theorems
either quantify over it or constrain it to a permutation of xs.dedup. -/
def pySetMaxByCount (order : List String → List String) (xs : List String) : String :=
  pyMaxByCount (fun y => xs.count y) (order xs)

/-- Canonical admissible set-enumeration order (first-occurrence order). -/
def dedupOrder : List String → List String := fun xs => xs.dedup

/-! ## Data model (src/core/data_models.py) -/

/-- ScoreMetrics dataclass with its field defaults (lines 22-67 of
src/core/data_models.py). -/
structure ScoreMetrics where
  sharpness : ℚ := 0.0
  brightness : ℚ := 0.0
  contrast : ℚ := 0.0
  color_vibrancy : ℚ := 0.0
  motion_score : ℚ := 0.0
  composition_score : ℚ := 0.0
  person_score : ℚ := 0.0
  center_focus_score : ℚ := 0.0
  camera_movement_type : String := "Static"
  camera_movement_quality : ℚ := 0.0
  camera_movement_smoothness : ℚ := 0.0
  camera_movement_confidence : ℚ := 0.0
  stabilization_type : String := "unknown"
  stabilization_score : ℚ := 0.0
  focus_has_change : Bool := false
  focus_change_amount : ℚ := 0.0
  focus_sharpness : ℚ := 0.0
  focus_has_bokeh : Bool := false
  lighting_type : String := "natural"
  lighting_quality : ℚ := 0.0
  lighting_is_dramatic : Bool := false
  color_grading_style : String := "neutral"
  color_grading_strength : ℚ := 0.0
  color_saturation : ℚ := 0.0
  color_warmth : ℚ := 0.0
  exposure_quality : String := "properly_exposed"
  exposure_score : ℚ := 0.0
  exposure_is_well_exposed : Bool := true
  shot_framing_type : String := "medium"
  shot_composition_score : ℚ := 0.0
  shot_follows_rule_of_thirds : Bool := false

/-- VideoSegment dataclass (src/core/data_models.py lines 92-141). -/
structure VideoSegment where
  video_file : String
  start_time : ℚ
  end_time : ℚ
  duration : ℚ
  metrics : ScoreMetrics

/-- VideoSegment.overlaps_with (src/core/data_models.py lines 126-141):
false for different source videos, otherwise
not (self.end_time <= other.start_time or self.start_time >= other.end_time). -/
def VideoSegment.overlaps_with (s other : VideoSegment) : Bool :=
  if s.video_file ≠ other.video_file then
    false
  else
    !(decide (s.end_time ≤ other.start_time) || decide (s.start_time ≥ other.end_time))

/-- C10: overlaps_with is true iff the two segments name the same video file
and their time intervals intersect; for different files it is always false. -/
theorem overlaps_with_iff_same_file_and_intersect (a b : VideoSegment) :
    (a.overlaps_with b = true ↔
      a.video_file = b.video_file ∧
        ¬(a.end_time ≤ b.start_time ∨ a.start_time ≥ b.end_time)) ∧
    (a.video_file ≠ b.video_file → a.overlaps_with b = false) := by
  unfold VideoSegment.overlaps_with
  constructor
  · by_cases hf : a.video_file = b.video_file
    · simp [hf]
    · simp [hf]
  · intro hf
    simp [hf]

/-! ## Per-frame judgments (the dicts returned by the classifiers)

Each structure mirrors the dictionary one classifier returns for one frame;
fields that the code computes with external vision primitives and never
reads again (plain-text descriptions) are omitted. -/

/-- Dictionary returned by CameraMovementMetric (camera_movement_metric.py
lines 227-236); movement_type holds the enum member's .value string. -/
structure MovementResult where
  movement_type : String
  confidence : ℚ
  magnitude : ℚ
  smoothness : ℚ
  cinematic_quality : ℚ
  direction_consistency : ℚ
  scale_factor : ℚ
  rotation_angle : ℚ

/-- Dictionary returned by StabilizationMetric (stabilization_metric.py). -/
structure StabilizationResult where
  stabilization_type : String
  stabilization_score : ℚ
  motion_consistency : ℚ

/-- Dictionary returned by FocusChangeMetric (focus_change_metric.py). -/
structure FocusResult where
  has_focus_change : Bool
  focus_change_amount : ℚ
  current_sharpness : ℚ
  has_shallow_dof : Bool
  dof_variance : ℚ

/-- Dictionary returned by LightingTypeMetric (lighting_type_metric.py
lines 124-135); confidence_scores keeps dict insertion order. -/
structure LightingResult where
  dominant_type : String
  confidence_scores : List (String × ℚ)
  all_types : List String
  brightness : ℚ
  contrast : ℚ
  is_warm : Bool
  is_cool : Bool
  is_dramatic : Bool
  quality_score : ℚ

/-- Dictionary returned by ColorGradingMetric (color_grading_metric.py
lines 124-136). -/
structure GradingResult where
  dominant_profile : String
  all_profiles : List String
  confidence_scores : List (String × ℚ)
  saturation_level : ℚ
  warmth_level : ℚ
  brightness_level : ℚ
  grading_strength : ℚ
  is_colorful : Bool
  is_muted : Bool
  is_warm : Bool
  is_cool : Bool

/-- Dictionary returned by ExposureMetric (exposure_metric.py lines 99-110);
the fields derived from the histogram standard deviation are omitted. -/
structure ExposureResult where
  exposure_class : String
  exposure_quality : ℚ
  brightness : ℚ
  dynamic_range : ℚ
  clipped_highlights_pct : ℚ
  crushed_blacks_pct : ℚ
  is_well_exposed : Bool

/-- Dictionary returned by ShotFramingMetric (shot_framing_metric.py
lines 83-95). -/
structure FramingResult where
  shot_size : String
  subject_ratio : ℚ
  composition_score : ℚ
  rule_of_thirds_score : ℚ
  has_good_composition : Bool
  follows_rule_of_thirds : Bool

/-! ## Segment aggregation (src/core/segment_processor.py lines 160-233)

Every aggregator returns the metrics object unchanged on an empty judgment
list, mirroring the `if not data: return` guard; `order` models the
iteration order of Python's set() in `max(set(xs), key=xs.count)`. -/

/-- SegmentProcessor._aggregate_camera_movement (lines 160-172). -/
def aggregate_camera_movement (order : List String → List String)
    (metrics : ScoreMetrics) (data : List MovementResult) : ScoreMetrics :=
  if data.isEmpty then metrics else
  { metrics with
    camera_movement_type := pySetMaxByCount order (data.map (·.movement_type))
    camera_movement_quality := npMean (data.map (·.cinematic_quality)) / 100.0
    camera_movement_smoothness := npMean (data.map (·.smoothness)) / 100.0
    camera_movement_confidence := npMean (data.map (·.confidence)) / 100.0 }

/-- SegmentProcessor._aggregate_stabilization (lines 174-181). -/
def aggregate_stabilization (order : List String → List String)
    (metrics : ScoreMetrics) (data : List StabilizationResult) : ScoreMetrics :=
  if data.isEmpty then metrics else
  { metrics with
    stabilization_type := pySetMaxByCount order (data.map (·.stabilization_type))
    stabilization_score := npMean (data.map (·.stabilization_score)) }

/-- SegmentProcessor._aggregate_focus (lines 183-192). -/
def aggregate_focus (metrics : ScoreMetrics) (data : List FocusResult) : ScoreMetrics :=
  if data.isEmpty then metrics else
  { metrics with
    focus_has_change := data.any (·.has_focus_change)
    focus_change_amount := npMean (data.map (·.focus_change_amount))
    focus_sharpness := npMean (data.map (·.current_sharpness))
    focus_has_bokeh := data.any (·.has_shallow_dof) }

/-- SegmentProcessor._aggregate_lighting (lines 194-202). -/
def aggregate_lighting (order : List String → List String)
    (metrics : ScoreMetrics) (data : List LightingResult) : ScoreMetrics :=
  if data.isEmpty then metrics else
  { metrics with
    lighting_type := pySetMaxByCount order (data.map (·.dominant_type))
    lighting_quality := npMean (data.map (·.quality_score))
    lighting_is_dramatic := data.any (·.is_dramatic) }

/-- SegmentProcessor._aggregate_color_grading (lines 204-213). -/
def aggregate_color_grading (order : List String → List String)
    (metrics : ScoreMetrics) (data : List GradingResult) : ScoreMetrics :=
  if data.isEmpty then metrics else
  { metrics with
    color_grading_style := pySetMaxByCount order (data.map (·.dominant_profile))
    color_grading_strength := npMean (data.map (·.grading_strength))
    color_saturation := npMean (data.map (·.saturation_level))
    color_warmth := npMean (data.map (·.warmth_level)) }

/-- SegmentProcessor._aggregate_exposure (lines 215-223). -/
def aggregate_exposure (order : List String → List String)
    (metrics : ScoreMetrics) (data : List ExposureResult) : ScoreMetrics :=
  if data.isEmpty then metrics else
  { metrics with
    exposure_quality := pySetMaxByCount order (data.map (·.exposure_class))
    exposure_score := npMean (data.map (·.exposure_quality))
    exposure_is_well_exposed := data.all (·.is_well_exposed) }

/-- SegmentProcessor._aggregate_framing (lines 225-233). -/
def aggregate_framing (order : List String → List String)
    (metrics : ScoreMetrics) (data : List FramingResult) : ScoreMetrics :=
  if data.isEmpty then metrics else
  { metrics with
    shot_framing_type := pySetMaxByCount order (data.map (·.shot_size))
    shot_composition_score := npMean (data.map (·.composition_score))
    shot_follows_rule_of_thirds := data.any (·.follows_rule_of_thirds) }

/-! ## The first-maximum fold behind Python's max(..., key=...) -/

/-- The fold in pyMaxByCount picks an element of the seed-and-list. -/
lemma foldl_pick_mem (key : String → ℕ) (x : String) (l : List String) :
    l.foldl (fun best y => if key y > key best then y else best) x ∈ x :: l := by
  induction l generalizing x with
  | nil => simp
  | cons y l ih =>
    simp only [List.foldl_cons]
    rcases List.mem_cons.mp (ih (if key y > key x then y else x)) with h | h
    · rw [h]
      split
      · simp
      · simp
    · simp [List.mem_cons.mpr (Or.inr h)]

/-- The fold in pyMaxByCount attains the maximal key over seed and list. -/
lemma foldl_pick_ge (key : String → ℕ) (x : String) (l : List String) :
    ∀ z ∈ x :: l, key z ≤ key (l.foldl (fun best y => if key y > key best then y else best) x) := by
  induction l generalizing x with
  | nil => simp
  | cons y l ih =>
    intro z hz
    simp only [List.foldl_cons]
    have hseed : key z ≤ key (if key y > key x then y else x) ∨ z ∈ l := by
      rcases List.mem_cons.mp hz with rfl | hz
      · left
        split
        · omega
        · exact le_refl _
      · rcases List.mem_cons.mp hz with rfl | hz
        · left
          split
          · exact le_refl _
          · omega
        · right
          exact hz
    rcases hseed with h | h
    · exact le_trans h (ih _ _ (List.mem_cons_self _ _))
    · exact ih _ _ (List.mem_cons.mpr (Or.inr h))

/-- Under any admissible set-enumeration order, max(set(xs), key=xs.count)
returns an element of xs whose count is maximal: a mode of xs. -/
lemma pySetMaxByCount_is_mode (order : List String → List String) (xs : List String)
    (hxs : xs ≠ []) (hord : (order xs).Perm xs.dedup) :
    pySetMaxByCount order xs ∈ xs ∧
      ∀ y ∈ xs, xs.count y ≤ xs.count (pySetMaxByCount order xs) := by
  have hdne : xs.dedup ≠ [] := fun h => hxs ((List.dedup_eq_nil xs).mp h)
  have hone : order xs ≠ [] := by
    intro h
    rw [h] at hord
    exact hdne (List.perm_nil.mp hord.symm)
  obtain ⟨y, ys, hys⟩ := List.exists_cons_of_ne_nil hone
  have hres : pySetMaxByCount order xs =
      ys.foldl (fun best z => if xs.count z > xs.count best then z else best) y := by
    simp [pySetMaxByCount, pyMaxByCount, hys]
  constructor
  · rw [hres]
    have hmem : (pySetMaxByCount order xs) ∈ y :: ys := hres ▸ foldl_pick_mem _ y ys
    have : pySetMaxByCount order xs ∈ order xs := by
      rw [hys]
      exact hmem
    rw [← hres]
    exact List.mem_dedup.mp (hord.mem_iff.mp this)
  · intro z hz
    have hzo : z ∈ order xs := hord.mem_iff.mpr (List.mem_dedup.mpr hz)
    rw [hys] at hzo
    rw [hres]
    exact foldl_pick_ge (fun w => xs.count w) y ys z hzo

/-- Judgment with a given movement label and zeroed sub-scores. -/
def mkMovement (t : String) : MovementResult :=
  { movement_type := t, confidence := 0, magnitude := 0, smoothness := 0,
    cinematic_quality := 0, direction_consistency := 0, scale_factor := 1,
    rotation_angle := 0 }

/-- Judgment with a given exposure class and zeroed sub-scores. -/
def mkExposure (c : String) (well : Bool) : ExposureResult :=
  { exposure_class := c, exposure_quality := 0, brightness := 0,
    dynamic_range := 0, clipped_highlights_pct := 0, crushed_blacks_pct := 0,
    is_well_exposed := well }

/-- C1 counterexample: for the judgment list [A, B, A, B] the enumeration
["B", "A"] is an admissible order of Python's set of the two labels, and
under it the aggregated camera_movement_type is "B", not the
first-to-reach-the-maximum label "A" the claim requires. -/
theorem aggregate_movement_tie_break_counterexample :
    (["B", "A"] : List String).Perm
        (["A", "B", "A", "B"] : List String).dedup ∧
      (aggregate_camera_movement (fun _ => ["B", "A"]) {}
          [mkMovement "A", mkMovement "B", mkMovement "A", mkMovement "B"]
        ).camera_movement_type = "B" ∧
      ("B" : String) ≠ "A" := by
  refine ⟨by decide, ?_, by decide⟩
  rfl

/-- C1 amended: for every non-empty judgment list and every admissible
enumeration order of the label set, each of the six aggregated categorical
labels (camera_movement_type, stabilization_type, lighting_type,
color_grading_style, exposure_quality, shot_framing_type) is a label of
maximal count among that family's per-frame labels; which of several tied
modes is returned depends on the set order, not on encounter order. -/
theorem aggregate_categorical_is_mode (order : List String → List String)
    (hord : ∀ xs, (order xs).Perm xs.dedup) (m : ScoreMetrics)
    (mdata : List MovementResult) (sdata : List StabilizationResult)
    (ldata : List LightingResult) (gdata : List GradingResult)
    (edata : List ExposureResult) (frdata : List FramingResult)
    (hm : mdata ≠ []) (hs : sdata ≠ []) (hl : ldata ≠ [])
    (hg : gdata ≠ []) (he : edata ≠ []) (hfr : frdata ≠ []) :
    ((aggregate_camera_movement order m mdata).camera_movement_type ∈
        mdata.map (·.movement_type) ∧
      ∀ y ∈ mdata.map (·.movement_type),
        (mdata.map (·.movement_type)).count y ≤
          (mdata.map (·.movement_type)).count
            ((aggregate_camera_movement order m mdata).camera_movement_type)) ∧
    ((aggregate_stabilization order m sdata).stabilization_type ∈
        sdata.map (·.stabilization_type) ∧
      ∀ y ∈ sdata.map (·.stabilization_type),
        (sdata.map (·.stabilization_type)).count y ≤
          (sdata.map (·.stabilization_type)).count
            ((aggregate_stabilization order m sdata).stabilization_type)) ∧
    ((aggregate_lighting order m ldata).lighting_type ∈
        ldata.map (·.dominant_type) ∧
      ∀ y ∈ ldata.map (·.dominant_type),
        (ldata.map (·.dominant_type)).count y ≤
          (ldata.map (·.dominant_type)).count
            ((aggregate_lighting order m ldata).lighting_type)) ∧
    ((aggregate_color_grading order m gdata).color_grading_style ∈
        gdata.map (·.dominant_profile) ∧
      ∀ y ∈ gdata.map (·.dominant_profile),
        (gdata.map (·.dominant_profile)).count y ≤
          (gdata.map (·.dominant_profile)).count
            ((aggregate_color_grading order m gdata).color_grading_style)) ∧
    ((aggregate_exposure order m edata).exposure_quality ∈
        edata.map (·.exposure_class) ∧
      ∀ y ∈ edata.map (·.exposure_class),
        (edata.map (·.exposure_class)).count y ≤
          (edata.map (·.exposure_class)).count
            ((aggregate_exposure order m edata).exposure_quality)) ∧
    ((aggregate_framing order m frdata).shot_framing_type ∈
        frdata.map (·.shot_size) ∧
      ∀ y ∈ frdata.map (·.shot_size),
        (frdata.map (·.shot_size)).count y ≤
          (frdata.map (·.shot_size)).count
            ((aggregate_framing order m frdata).shot_framing_type)) := by
  have hme : mdata.isEmpty = false := by simp [hm]
  have hse : sdata.isEmpty = false := by simp [hs]
  have hle : ldata.isEmpty = false := by simp [hl]
  have hge : gdata.isEmpty = false := by simp [hg]
  have hee : edata.isEmpty = false := by simp [he]
  have hfe : frdata.isEmpty = false := by simp [hfr]
  have hmm : mdata.map (·.movement_type) ≠ [] := by simp [hm]
  have hsm : sdata.map (·.stabilization_type) ≠ [] := by simp [hs]
  have hlm : ldata.map (·.dominant_type) ≠ [] := by simp [hl]
  have hgm : gdata.map (·.dominant_profile) ≠ [] := by simp [hg]
  have hem : edata.map (·.exposure_class) ≠ [] := by simp [he]
  have hfm : frdata.map (·.shot_size) ≠ [] := by simp [hfr]
  refine ⟨?_, ?_, ?_, ?_, ?_, ?_⟩
  · have := pySetMaxByCount_is_mode order (mdata.map (·.movement_type)) hmm (hord _)
    simpa [aggregate_camera_movement, hme] using this
  · have := pySetMaxByCount_is_mode order (sdata.map (·.stabilization_type)) hsm (hord _)
    simpa [aggregate_stabilization, hse] using this
  · have := pySetMaxByCount_is_mode order (ldata.map (·.dominant_type)) hlm (hord _)
    simpa [aggregate_lighting, hle] using this
  · have := pySetMaxByCount_is_mode order (gdata.map (·.dominant_profile)) hgm (hord _)
    simpa [aggregate_color_grading, hge] using this
  · have := pySetMaxByCount_is_mode order (edata.map (·.exposure_class)) hem (hord _)
    simpa [aggregate_exposure, hee] using this
  · have := pySetMaxByCount_is_mode order (frdata.map (·.shot_size)) hfm (hord _)
    simpa [aggregate_framing, hfe] using this

/-- Judgment with a given stabilization label and zeroed sub-scores. -/
def mkStabilization (t : String) : StabilizationResult :=
  { stabilization_type := t, stabilization_score := 0, motion_consistency := 0 }

/-- Judgment with a given lighting label and zeroed sub-scores. -/
def mkLighting (t : String) : LightingResult :=
  { dominant_type := t, confidence_scores := [], all_types := [], brightness := 0,
    contrast := 0, is_warm := false, is_cool := false, is_dramatic := false,
    quality_score := 0 }

/-- Judgment with a given grading label and zeroed sub-scores. -/
def mkGrading (t : String) : GradingResult :=
  { dominant_profile := t, all_profiles := [], confidence_scores := [],
    saturation_level := 0, warmth_level := 0, brightness_level := 0,
    grading_strength := 0, is_colorful := false, is_muted := false,
    is_warm := false, is_cool := false }

/-- Judgment with a given shot-size label and zeroed sub-scores. -/
def mkFraming (t : String) : FramingResult :=
  { shot_size := t, subject_ratio := 0, composition_score := 0,
    rule_of_thirds_score := 0, has_good_composition := false,
    follows_rule_of_thirds := false }

/-- C1 witness: the amended statement holds at concrete singleton inputs
for all six categorical families. -/
theorem aggregate_categorical_is_mode_witness :
    ([mkMovement "A"] : List MovementResult) ≠ [] ∧
      (aggregate_camera_movement dedupOrder {} [mkMovement "A"]).camera_movement_type ∈
        ([mkMovement "A"].map (·.movement_type)) ∧
      (aggregate_stabilization dedupOrder {} [mkStabilization "tripod"]).stabilization_type ∈
        ([mkStabilization "tripod"].map (·.stabilization_type)) ∧
      (aggregate_lighting dedupOrder {} [mkLighting "natural"]).lighting_type ∈
        ([mkLighting "natural"].map (·.dominant_type)) ∧
      (aggregate_color_grading dedupOrder {} [mkGrading "neutral"]).color_grading_style ∈
        ([mkGrading "neutral"].map (·.dominant_profile)) ∧
      (aggregate_exposure dedupOrder {} [mkExposure "properly_exposed" true]).exposure_quality ∈
        ([mkExposure "properly_exposed" true].map (·.exposure_class)) ∧
      (aggregate_framing dedupOrder {} [mkFraming "medium"]).shot_framing_type ∈
        ([mkFraming "medium"].map (·.shot_size)) := by
  have h := aggregate_categorical_is_mode dedupOrder (fun xs => List.Perm.refl _) {}
    [mkMovement "A"] [mkStabilization "tripod"] [mkLighting "natural"]
    [mkGrading "neutral"] [mkExposure "properly_exposed" true] [mkFraming "medium"]
    (by simp) (by simp) (by simp) (by simp) (by simp) (by simp)
  exact ⟨by simp, h.1.1, h.2.1.1, h.2.2.1.1, h.2.2.2.1.1, h.2.2.2.2.1.1, h.2.2.2.2.2.1⟩

/-- C5: for non-empty judgment lists the aggregator reduces the
has-focus-change, has-bokeh and is-dramatic flags by OR over the frames and
is_well_exposed by AND over the frames; hence one frame with a flag set
forces the segment flag true, and one frame not individually well exposed
forces the segment is_well_exposed false. -/
theorem aggregate_bool_or_and (order : List String → List String) (m : ScoreMetrics)
    (fdata : List FocusResult) (ldata : List LightingResult) (edata : List ExposureResult)
    (hf : fdata ≠ []) (hl : ldata ≠ []) (he : edata ≠ []) :
    (aggregate_focus m fdata).focus_has_change = fdata.any (·.has_focus_change) ∧
    (aggregate_focus m fdata).focus_has_bokeh = fdata.any (·.has_shallow_dof) ∧
    (aggregate_lighting order m ldata).lighting_is_dramatic = ldata.any (·.is_dramatic) ∧
    (aggregate_exposure order m edata).exposure_is_well_exposed = edata.all (·.is_well_exposed) ∧
    (∀ d ∈ fdata, d.has_focus_change = true →
      (aggregate_focus m fdata).focus_has_change = true) ∧
    (∀ d ∈ edata, d.is_well_exposed = false →
      (aggregate_exposure order m edata).exposure_is_well_exposed = false) := by
  have hfe : fdata.isEmpty = false := by simp [hf]
  have hle : ldata.isEmpty = false := by simp [hl]
  have hee : edata.isEmpty = false := by simp [he]
  refine ⟨by simp [aggregate_focus, hfe], by simp [aggregate_focus, hfe],
    by simp [aggregate_lighting, hle], by simp [aggregate_exposure, hee], ?_, ?_⟩
  · intro d hd hflag
    have h1 : fdata.any (·.has_focus_change) = true :=
      List.any_eq_true.mpr ⟨d, hd, hflag⟩
    simp [aggregate_focus, hfe, h1]
  · intro d hd hflag
    have h1 : edata.all (·.is_well_exposed) = false := by
      rw [List.all_eq_false]
      exact ⟨d, hd, by simp [hflag]⟩
    simp [aggregate_exposure, hee, h1]

/-- C5 witness: concrete singleton judgment lists settle the hypotheses. -/
theorem aggregate_bool_or_and_witness :
    (aggregate_exposure dedupOrder {} [mkExposure "underexposed" false]
      ).exposure_is_well_exposed = ([mkExposure "underexposed" false].all (·.is_well_exposed)) :=
  (aggregate_bool_or_and dedupOrder {}
    [({ has_focus_change := true, focus_change_amount := 0, current_sharpness := 0,
        has_shallow_dof := false, dof_variance := 0 } : FocusResult)]
    [({ dominant_type := "natural", confidence_scores := [], all_types := [],
        brightness := 0, contrast := 0, is_warm := false, is_cool := false,
        is_dramatic := true, quality_score := 0 } : LightingResult)]
    [mkExposure "underexposed" false]
    (by simp) (by simp) (by simp)).2.2.2.1

/-! ## Color grading classifier (src/metrics/cinematic/color_grading_metric.py)

The channel statistics (HSV saturation/value means, LAB b-channel mean)
are produced by the external color-space conversion and are inputs here;
the statistics the source computes but never reads (saturation_std, a_mean)
are not modelled. dark_bright carries the (blue-in-shadows, red-in-highlights)
means when both pixel selections are non-empty. -/

/-- Python max(d.items(), key=lambda x: x[1])[0] over an insertion-ordered
dict: first key attaining the maximal value. -/
def pyDictMaxBySnd : List (String × ℚ) → Option String
  | [] => none
  | p :: rest =>
    some ((rest.foldl (fun best q => if q.2 > best.2 then q else best) p).1)

/-- Python dict .get(key, default) over an association list with unique keys. -/
def lookupD (scores : List (String × ℚ)) (k : String) (d : ℚ) : ℚ :=
  match scores.find? (fun p => p.1 == k) with
  | some p => p.2
  | none => d

/-- ColorGradingMetric.calculate (color_grading_metric.py lines 38-136). -/
def color_grading_calculate (saturation_mean value_mean b_mean : ℚ)
    (dark_bright : Option (ℚ × ℚ)) : GradingResult :=
  let warm_cool : List (String × ℚ) :=
    if b_mean > 135 then [("warm", min ((b_mean - 128) / 127 * 100) 100)]
    else if b_mean < 120 then [("cool", min ((128 - b_mean) / 128 * 100) 100)]
    else []
  let sat_prof : List (String × ℚ) :=
    if saturation_mean < 80 then [("desaturated", (1 - saturation_mean / 255) * 100)]
    else if saturation_mean > 150 then [("vibrant", saturation_mean / 255 * 100)]
    else []
  let mono : List (String × ℚ) :=
    if saturation_mean < 20 then [("monochrome", (1 - saturation_mean / 20) * 100)] else []
  let teal : List (String × ℚ) :=
    match dark_bright with
    | some (dark_b_mean, bright_r_mean) =>
      if dark_b_mean > 120 ∧ bright_r_mean > 140 then [("teal_orange", 75)] else []
    | none => []
  let vintage : List (String × ℚ) :=
    if saturation_mean < 100 ∧ b_mean > 130 then [("vintage", 70)] else []
  let fired := warm_cool ++ sat_prof ++ mono ++ teal ++ vintage
  let confidence_scores := if fired.isEmpty then [("neutral", 50)] else fired
  let dominant_profile := (pyDictMaxBySnd confidence_scores).getD "neutral"
  { dominant_profile := dominant_profile
    all_profiles := confidence_scores.map (·.1)
    confidence_scores := confidence_scores
    saturation_level := saturation_mean
    warmth_level := b_mean
    brightness_level := value_mean
    grading_strength := lookupD confidence_scores dominant_profile 50 / 100.0
    is_colorful := decide (saturation_mean > 100)
    is_muted := decide (saturation_mean < 60)
    is_warm := decide (b_mean > 130)
    is_cool := decide (b_mean < 125) }

/-! ## Focus change classifier (src/metrics/cinematic/focus_change_metric.py)

The Laplacian edge responses are external; the classifier receives the
current frame's Laplacian variance, the nine 3x3-grid per-cell sharpness
values used for bokeh detection, the three per-cell values used for the
dof_variance field, and the previous frame's Laplacian variance when a
previous frame exists. -/

/-- FocusChangeMetric.calculate (focus_change_metric.py lines 29-78);
bokeh detection is np.var of the nine per-cell sharpness values against
the fixed threshold 1000 (lines 80-101). -/
def focus_change_calculate (current_sharpness : ℚ) (region_sharpness : List ℚ)
    (dof_regions : List ℚ) (prev_sharpness : Option ℚ) : FocusResult :=
  let has_bokeh := decide (npVar region_sharpness > 1000)
  match prev_sharpness with
  | none =>
    { has_focus_change := false, focus_change_amount := 0.0,
      current_sharpness := current_sharpness, has_shallow_dof := has_bokeh,
      dof_variance := 0.0 }
  | some prev =>
    let focus_change := |current_sharpness - prev|
    let focus_change_percentage := focus_change / (prev + 1 / 1000000) * 100
    { has_focus_change := decide (focus_change_percentage > 15),
      focus_change_amount := focus_change_percentage,
      current_sharpness := current_sharpness, has_shallow_dof := has_bokeh,
      dof_variance := npVar dof_regions }

/-! ## Mean bounds -/

/-- The np.mean of a list of nonnegative rationals is nonnegative. -/
lemma npMean_nonneg (xs : List ℚ) (h : ∀ x ∈ xs, 0 ≤ x) : 0 ≤ npMean xs := by
  unfold npMean
  exact div_nonneg (List.sum_nonneg h) (Nat.cast_nonneg _)

/-- The np.mean of a non-empty list bounded above by b is at most b. -/
lemma npMean_le (xs : List ℚ) (b : ℚ) (hne : xs ≠ []) (h : ∀ x ∈ xs, x ≤ b) :
    npMean xs ≤ b := by
  unfold npMean
  have hlen : (0 : ℚ) < xs.length := by
    have := List.length_pos.mpr hne
    exact_mod_cast this
  rw [div_le_iff₀ hlen]
  have := List.sum_le_card_nsmul xs b h
  simpa [nsmul_eq_mul, mul_comm] using this

/-- C2 counterexample: a frame whose HSV saturation mean is 200 yields a
color-grading judgment with saturation_level 200, and the aggregated
color_saturation of a one-frame segment is 200, far above 1; likewise a
frame pair with Laplacian variances 500 and 100 yields a
focus_change_amount near 400 (a percentage) and focus_sharpness 500. -/
theorem scoremetrics_unit_range_counterexample :
    (aggregate_color_grading dedupOrder {}
        [color_grading_calculate 200 100 128 none]).color_saturation = 200 ∧
      ¬((200 : ℚ) ≤ 1) ∧
      (aggregate_color_grading dedupOrder {}
        [color_grading_calculate 200 100 128 none]).color_warmth = 128 ∧
      (aggregate_focus {}
        [focus_change_calculate 500 [] [] (some 100)]).focus_change_amount > 1 ∧
      (aggregate_focus {}
        [focus_change_calculate 500 [] [] (some 100)]).focus_sharpness = 500 := by
  refine ⟨?_, by norm_num, ?_, ?_, ?_⟩ <;>
    norm_num [aggregate_color_grading, aggregate_focus, color_grading_calculate,
      focus_change_calculate, npMean, List.isEmpty]

/-- C2 amended: all other aggregated numeric fields aside, the four fields
focus_change_amount, focus_sharpness, color_saturation and color_warmth are
not normalized to [0, 1]: they are means of raw per-frame values, so
color_saturation and color_warmth lie in the 8-bit channel range [0, 255]
and the two focus fields are only guaranteed nonnegative (a percentage and
a Laplacian variance respectively). -/
theorem unbounded_fields_raw_ranges (order : List String → List String)
    (m : ScoreMetrics) (gdata : List GradingResult) (fdata : List FocusResult)
    (hg : gdata ≠ []) (hf : fdata ≠ [])
    (hgs : ∀ d ∈ gdata, 0 ≤ d.saturation_level ∧ d.saturation_level ≤ 255 ∧
      0 ≤ d.warmth_level ∧ d.warmth_level ≤ 255)
    (hfs : ∀ d ∈ fdata, 0 ≤ d.focus_change_amount ∧ 0 ≤ d.current_sharpness) :
    (0 ≤ (aggregate_color_grading order m gdata).color_saturation ∧
      (aggregate_color_grading order m gdata).color_saturation ≤ 255) ∧
    (0 ≤ (aggregate_color_grading order m gdata).color_warmth ∧
      (aggregate_color_grading order m gdata).color_warmth ≤ 255) ∧
    0 ≤ (aggregate_focus m fdata).focus_change_amount ∧
    0 ≤ (aggregate_focus m fdata).focus_sharpness := by
  have hge : gdata.isEmpty = false := by simp [hg]
  have hfe : fdata.isEmpty = false := by simp [hf]
  have hgm : gdata.map (·.saturation_level) ≠ [] := by simp [hg]
  have hwm : gdata.map (·.warmth_level) ≠ [] := by simp [hg]
  refine ⟨⟨?_, ?_⟩, ⟨?_, ?_⟩, ?_, ?_⟩
  · simp only [aggregate_color_grading, hge, Bool.false_eq_true, if_false]
    exact npMean_nonneg _ (by simpa using fun d hd => (hgs d hd).1)
  · simp only [aggregate_color_grading, hge, Bool.false_eq_true, if_false]
    exact npMean_le _ _ hgm (by simpa using fun d hd => (hgs d hd).2.1)
  · simp only [aggregate_color_grading, hge, Bool.false_eq_true, if_false]
    exact npMean_nonneg _ (by simpa using fun d hd => (hgs d hd).2.2.1)
  · simp only [aggregate_color_grading, hge, Bool.false_eq_true, if_false]
    exact npMean_le _ _ hwm (by simpa using fun d hd => (hgs d hd).2.2.2)
  · simp only [aggregate_focus, hfe, Bool.false_eq_true, if_false]
    exact npMean_nonneg _ (by simpa using fun d hd => (hfs d hd).1)
  · simp only [aggregate_focus, hfe, Bool.false_eq_true, if_false]
    exact npMean_nonneg _ (by simpa using fun d hd => (hfs d hd).2)

/-- C2 witness: the amended range bounds hold at concrete one-frame inputs. -/
theorem unbounded_fields_raw_ranges_witness :
    (0 ≤ (aggregate_color_grading dedupOrder {}
        [color_grading_calculate 10 100 128 none]).color_saturation ∧
      (aggregate_color_grading dedupOrder {}
        [color_grading_calculate 10 100 128 none]).color_saturation ≤ 255) :=
  (unbounded_fields_raw_ranges dedupOrder {}
    [color_grading_calculate 10 100 128 none]
    [focus_change_calculate 7 [] [] none]
    (by simp) (by simp)
    (by
      intro d hd
      simp only [List.mem_singleton] at hd
      subst hd
      refine ⟨?_, ?_, ?_, ?_⟩ <;> norm_num [color_grading_calculate])
    (by
      intro d hd
      simp only [List.mem_singleton] at hd
      subst hd
      exact ⟨by norm_num [focus_change_calculate], by norm_num [focus_change_calculate]⟩)).1

/-! ## Camera movement classifier (src/metrics/cinematic/camera_movement_metric.py)

The dense-flow statistics (magnitude mean/std), feature-tracking affine
parameters (scale, rotation, translation) and the radial-flow median are
produced by the external vision primitives and are inputs to the
classification step. -/

/-- CameraMovement enum (camera_movement_metric.py lines 19-33). -/
inductive CameraMovement where
  | STATIC
  | PAN_LEFT
  | PAN_RIGHT
  | TILT_UP
  | TILT_DOWN
  | ZOOM_IN
  | ZOOM_OUT
  | DOLLY_IN
  | DOLLY_OUT
  | ROTATION_CW
  | ROTATION_CCW
  | HANDHELD
  | COMPLEX
  deriving DecidableEq

/-- The .value string of each enum member. -/
def CameraMovement.value : CameraMovement → String
  | .STATIC => "Static"
  | .PAN_LEFT => "Pan Left"
  | .PAN_RIGHT => "Pan Right"
  | .TILT_UP => "Tilt Up"
  | .TILT_DOWN => "Tilt Down"
  | .ZOOM_IN => "Zoom In"
  | .ZOOM_OUT => "Zoom Out"
  | .DOLLY_IN => "Dolly In"
  | .DOLLY_OUT => "Dolly Out"
  | .ROTATION_CW => "Rotation CW"
  | .ROTATION_CCW => "Rotation CCW"
  | .HANDHELD => "Handheld/Shake"
  | .COMPLEX => "Complex Movement"

/-- The fixed-priority decision cascade of _classify_movement (lines 168-216):
handheld, rotation, zoom/dolly, pan, tilt, complex, static; the first rule
whose condition holds yields (label, confidence, base cinematic quality).
The thresholds are the source constants motion 0.3, pan 0.8, tilt 0.8,
zoom 0.15, rotation 0.8; variance_ratio and direction_consistency are
computed by the caller. -/
def movement_cascade (mean_mag variance_ratio direction_consistency
    translation_x translation_y scale_factor rotation_angle median_radial : ℚ) :
    CameraMovement × ℚ × ℚ :=
  if variance_ratio > 1.5 ∧ mean_mag > 0.3 then
    (.HANDHELD, min 100 (variance_ratio * 30), 30)
  else if |rotation_angle| > 0.8 then
    (if rotation_angle > 0 then .ROTATION_CCW else .ROTATION_CW,
      min 100 (|rotation_angle| / 0.8 * 40), 75)
  else if |scale_factor - 1.0| > 0.01 ∨ |median_radial| > 0.15 then
    if scale_factor < 1.0 ∨ median_radial < 0 then
      if direction_consistency > 0.6 then
        (.ZOOM_IN, min 100 (max (|scale_factor - 1.0| * 50) |median_radial| / 0.15 * 60), 85)
      else
        (.DOLLY_IN, min 100 (max (|scale_factor - 1.0| * 50) |median_radial| / 0.15 * 60), 90)
    else
      if direction_consistency > 0.6 then
        (.ZOOM_OUT, min 100 (max (|scale_factor - 1.0| * 50) |median_radial| / 0.15 * 60), 70)
      else
        (.DOLLY_OUT, min 100 (max (|scale_factor - 1.0| * 50) |median_radial| / 0.15 * 60), 80)
  else if |translation_x| > 0.8 then
    (if translation_x > 0 then .PAN_RIGHT else .PAN_LEFT,
      min 100 (|translation_x| / 0.8 * 60), 75)
  else if |translation_y| > 0.8 then
    (if translation_y > 0 then .TILT_DOWN else .TILT_UP,
      min 100 (|translation_y| / 0.8 * 60), 70)
  else if mean_mag > 0.3 then
    (.COMPLEX, min 100 (mean_mag / 0.3 * 40), 65)
  else
    (.STATIC, 100, 50)

/-- CameraMovementMetric._classify_movement (lines 151-236): cascade, then
the smoothness computation and the smoothness bonus on cinematic quality
for classified movements, assembled into the returned dictionary. -/
def classify_movement (mean_mag std_mag translation_x translation_y
    scale_factor rotation_angle median_radial : ℚ) : MovementResult :=
  let variance_ratio := std_mag / (mean_mag + 1 / 1000000)
  let direction_consistency := max 0 (min 1 (1.0 - std_mag / (mean_mag + 1 / 1000000)))
  let c := movement_cascade mean_mag variance_ratio direction_consistency
    translation_x translation_y scale_factor rotation_angle median_radial
  let smoothness := if mean_mag > 0.1 then max 0 (100 - variance_ratio * 30) else 100
  { movement_type := c.1.value
    confidence := c.2.1
    magnitude := mean_mag
    smoothness := smoothness
    cinematic_quality :=
      if c.1 ∉ [CameraMovement.STATIC, CameraMovement.HANDHELD] then
        min 100 (c.2.2 + smoothness / 100 * 25)
      else c.2.2
    direction_consistency := direction_consistency
    scale_factor := scale_factor
    rotation_angle := rotation_angle }

/-- When the handheld and rotation rules do not fire, the zoom/dolly rule is
reached, so its label wins over pan. -/
lemma movement_cascade_zoom_reached (mean_mag variance_ratio direction_consistency
    translation_x translation_y scale_factor rotation_angle median_radial : ℚ)
    (hhand : ¬(variance_ratio > 1.5 ∧ mean_mag > 0.3))
    (hrot : ¬(|rotation_angle| > 0.8))
    (hzoom : |scale_factor - 1.0| > 0.01 ∨ |median_radial| > 0.15) :
    (movement_cascade mean_mag variance_ratio direction_consistency
        translation_x translation_y scale_factor rotation_angle median_radial).1 ∈
      [CameraMovement.ZOOM_IN, CameraMovement.ZOOM_OUT,
        CameraMovement.DOLLY_IN, CameraMovement.DOLLY_OUT] := by
  unfold movement_cascade
  rw [if_neg hhand, if_neg hrot, if_pos hzoom]
  split_ifs <;> simp

/-- C3 counterexample: signals satisfying both the zoom condition
(|scale − 1| = 0.5 > 0.01) and the pan condition (|tx| = 1 > 0.8), but also
the higher-priority handheld condition (variance ratio near 2, magnitude 1):
the classifier returns Handheld/Shake, not a zoom or dolly label. -/
theorem movement_priority_counterexample :
    (|(3 / 2 : ℚ) - 1.0| > 0.01 ∨ |(0 : ℚ)| > 0.15) ∧
      |(1 : ℚ)| > 0.8 ∧
      (classify_movement 1 2 1 0 (3 / 2) 0 0).movement_type = "Handheld/Shake" ∧
      (classify_movement 1 2 1 0 (3 / 2) 0 0).movement_type ∉
        (["Zoom In", "Zoom Out", "Dolly In", "Dolly Out"] : List String) := by
  have hlab : (classify_movement 1 2 1 0 (3 / 2) 0 0).movement_type = "Handheld/Shake" := by
    have hhand : (2 : ℚ) / (1 + 1 / 1000000) > 1.5 ∧ (1 : ℚ) > 0.3 := by
      constructor <;> norm_num
    show (movement_cascade 1 ((2 : ℚ) / (1 + 1 / 1000000)) _ 1 0 (3 / 2) 0 0).1.value = _
    unfold movement_cascade
    rw [if_pos hhand]
    rfl
  refine ⟨by norm_num [abs_of_pos], by norm_num, hlab, ?_⟩
  rw [hlab]
  decide

/-- C3 amended: the cascade is evaluated in the fixed order handheld,
rotation, zoom/dolly, pan, tilt, complex, static, first match wins; hence
whenever the zoom/dolly and pan conditions both hold AND no higher-priority
rule (handheld, rotation) fires, the returned label is a zoom or dolly
label and never a pan label. -/
theorem movement_zoom_beats_pan (mean_mag std_mag translation_x translation_y
    scale_factor rotation_angle median_radial : ℚ)
    (hhand : ¬(std_mag / (mean_mag + 1 / 1000000) > 1.5 ∧ mean_mag > 0.3))
    (hrot : ¬(|rotation_angle| > 0.8))
    (hzoom : |scale_factor - 1.0| > 0.01 ∨ |median_radial| > 0.15)
    (hpan : |translation_x| > 0.8) :
    (classify_movement mean_mag std_mag translation_x translation_y
        scale_factor rotation_angle median_radial).movement_type ∈
      (["Zoom In", "Zoom Out", "Dolly In", "Dolly Out"] : List String) ∧
    (classify_movement mean_mag std_mag translation_x translation_y
        scale_factor rotation_angle median_radial).movement_type ∉
      (["Pan Left", "Pan Right"] : List String) := by
  have hc := movement_cascade_zoom_reached mean_mag
    (std_mag / (mean_mag + 1 / 1000000))
    (max 0 (min 1 (1.0 - std_mag / (mean_mag + 1 / 1000000))))
    translation_x translation_y scale_factor rotation_angle median_radial
    hhand hrot hzoom
  have hform : (classify_movement mean_mag std_mag translation_x translation_y
      scale_factor rotation_angle median_radial).movement_type =
    (movement_cascade mean_mag (std_mag / (mean_mag + 1 / 1000000))
      (max 0 (min 1 (1.0 - std_mag / (mean_mag + 1 / 1000000))))
      translation_x translation_y scale_factor rotation_angle median_radial).1.value := rfl
  rw [hform]
  rcases List.mem_cons.mp hc with h | h
  · rw [h]
    exact ⟨by decide, by decide⟩
  rcases List.mem_cons.mp h with h | h
  · rw [h]
    exact ⟨by decide, by decide⟩
  rcases List.mem_cons.mp h with h | h
  · rw [h]
    exact ⟨by decide, by decide⟩
  rcases List.mem_cons.mp h with h | h
  · rw [h]
    exact ⟨by decide, by decide⟩
  · exact absurd h (by simp)

/-- C3 witness: with no handheld or rotation signal, scale 1.5 and
translation 1 the classifier indeed returns a zoom/dolly label. -/
theorem movement_zoom_beats_pan_witness :
    (|(3 / 2 : ℚ) - 1.0| > 0.01 ∨ |(0 : ℚ)| > 0.15) ∧
      (classify_movement 0 0 1 0 (3 / 2) 0 0).movement_type ∈
        (["Zoom In", "Zoom Out", "Dolly In", "Dolly Out"] : List String) :=
  ⟨by norm_num [abs_of_pos],
    (movement_zoom_beats_pan 0 0 1 0 (3 / 2) 0 0
      (by norm_num) (by norm_num) (by norm_num [abs_of_pos]) (by norm_num)).1⟩

/-! ## Exposure classifier (src/metrics/cinematic/exposure_metric.py)

The classifier receives the LAB L channel as a list of 8-bit values (the
color-space conversion is external); the mean, the clipped-highlight and
crushed-shadow percentages, the classification, the penalty and the clamp
are computed exactly as in the source. The fields derived from the
histogram standard deviation are not modelled. -/

/-- ExposureMetric.calculate (exposure_metric.py lines 33-110) from the
L channel. dynamic_range uses fold extrema with the 8-bit channel bounds
as seeds, which agrees with np.min/np.max on any non-empty 8-bit channel. -/
def exposure_calculate (l_channel : List ℕ) : ExposureResult :=
  let n : ℚ := l_channel.length
  let l_mean : ℚ := (l_channel.map (fun v => (v : ℚ))).sum / n
  let clipped_highlights_pct : ℚ := (l_channel.countP (fun v => 250 < v) : ℚ) / n * 100
  let crushed_blacks_pct : ℚ := (l_channel.countP (fun v => v < 5) : ℚ) / n * 100
  let cs : String × ℚ :=
    if 90 < l_mean ∧ l_mean < 165 then
      ("properly_exposed", 100 - |l_mean - 127.5| / 127.5 * 20)
    else if l_mean < 90 then
      ("underexposed", max 0 (l_mean / 90 * 70))
    else
      ("overexposed", max 0 ((255 - l_mean) / 90 * 70))
  let exposure_score :=
    max 0 (min 100 (cs.2 - (clipped_highlights_pct * 2 + crushed_blacks_pct * 2)))
  { exposure_class := cs.1
    exposure_quality := exposure_score / 100.0
    brightness := l_mean
    dynamic_range := ((l_channel.foldr max 0 : ℕ) : ℚ) - ((l_channel.foldr min 255 : ℕ) : ℚ)
    clipped_highlights_pct := clipped_highlights_pct
    crushed_blacks_pct := crushed_blacks_pct
    is_well_exposed :=
      decide (90 < l_mean ∧ l_mean < 165 ∧
        clipped_highlights_pct < 5 ∧ crushed_blacks_pct < 5) }

/-- C4: a frame whose L channel is uniformly 90 has mean lightness exactly
90 and no clipping, yet the strict comparisons classify it "overexposed"
rather than "properly_exposed" (the 90..165 band of the claim), and
is_well_exposed is false. -/
theorem exposure_mean_90_misclassified :
    (exposure_calculate (List.replicate 4 90)).brightness = 90 ∧
      (exposure_calculate (List.replicate 4 90)).clipped_highlights_pct = 0 ∧
      (exposure_calculate (List.replicate 4 90)).crushed_blacks_pct = 0 ∧
      (exposure_calculate (List.replicate 4 90)).exposure_class = "overexposed" ∧
      (exposure_calculate (List.replicate 4 90)).is_well_exposed = false := by
  refine ⟨?_, ?_, ?_, ?_, ?_⟩ <;>
    norm_num [exposure_calculate, List.replicate, List.countP, List.countP.go]

/-! ## Shot framing classifier (src/metrics/cinematic/shot_framing_metric.py)

The subject bounding box (cw, ch) inside a (w, h) frame comes from the
external contour detection; subject_ratio = cw*ch/(w*h) as calculate
computes it on lines 68-71. -/

/-- The insert-override condition of _classify_shot_size (line 116) with
subject_ratio expanded to the value the caller passes in. -/
def insert_override (cw ch w h : ℕ) : Prop :=
  (cw * ch : ℚ) / (w * h) > 0.4 ∧ (cw : ℚ) < w * 0.6 ∧ (ch : ℚ) < h * 0.6

instance insert_override_decidable (cw ch w h : ℕ) :
    Decidable (insert_override cw ch w h) := by
  unfold insert_override
  infer_instance

/-- ShotFramingMetric._classify_shot_size (lines 97-120): ratio-threshold
cascade, then the insert override. -/
def classify_shot_size (cw ch w h : ℕ) : String :=
  let subject_ratio : ℚ := (cw * ch : ℚ) / (w * h)
  let shot_size : String :=
    if subject_ratio > 0.6 then "extreme_close_up"
    else if subject_ratio > 0.35 then "close_up"
    else if subject_ratio > 0.15 then "medium"
    else if subject_ratio > 0.05 then "wide"
    else "extreme_wide"
  if insert_override cw ch w h then "insert" else shot_size

/-- A box strictly below 60 percent of both frame dimensions covers less
than 36 percent of the frame area, so the insert condition never holds. -/
lemma insert_override_unsat (cw ch w h : ℕ) : ¬ insert_override cw ch w h := by
  rintro ⟨h1, h2, h3⟩
  rcases eq_or_lt_of_le (by positivity : (0 : ℚ) ≤ (w : ℚ) * h) with h0 | h0
  · rw [← h0, div_zero] at h1
    norm_num at h1
  · have hlt : (0.4 : ℚ) * ((w : ℚ) * h) < (cw : ℚ) * ch := (lt_div_iff₀ h0).mp h1
    have hcc : (cw : ℚ) * ch ≤ ((w : ℚ) * 0.6) * ((h : ℚ) * 0.6) :=
      mul_le_mul h2.le h3.le (Nat.cast_nonneg ch) (by positivity)
    nlinarith [hlt, hcc, h0]

/-- C9 counterexample: no subject bounding box satisfies the insert
override, so no frame makes the classifier return "insert". -/
theorem shot_framing_insert_unreachable :
    ¬ ∃ cw ch w h : ℕ, insert_override cw ch w h := by
  rintro ⟨cw, ch, w, h, hc⟩
  exact insert_override_unsat cw ch w h hc

/-- C9 amended: the insert override is dead code; for every subject box the
classifier returns one of the five ratio-threshold labels and never
"insert". -/
theorem classify_shot_size_never_insert (cw ch w h : ℕ) :
    classify_shot_size cw ch w h ≠ "insert" ∧
      classify_shot_size cw ch w h ∈
        (["extreme_close_up", "close_up", "medium", "wide", "extreme_wide"] : List String) := by
  unfold classify_shot_size
  rw [if_neg (insert_override_unsat cw ch w h)]
  constructor
  · split_ifs <;> decide
  · split_ifs <;> decide

/-! ## Person detection (src/metrics/person_detection_metric.py)

The HOG detector call is external and may raise; HogOutcome is the result
of the try block's detection step: either an exception or a list of boxes
in the half-scale frame. np.sqrt is an external numeric primitive passed
in as sqrtQ; no theorem below depends on its values. -/

/-- Bounding box returned by hog.detectMultiScale in the half-scale frame. -/
structure HogBox where
  x : ℕ
  y : ℕ
  w : ℕ
  h : ℕ

/-- Outcome of the detection call: an exception, or the detected boxes. -/
inductive HogOutcome where
  | raised
  | detections (boxes : List HogBox)

/-- PersonDetectionMetric._calculate_person_score (lines 93-117) with the
optimal coverage window [0.15, 0.7]. -/
def calculate_person_score (box_w box_h frame_w frame_h : ℕ) : ℚ :=
  let coverage : ℚ := (box_w * box_h : ℚ) / (frame_w * frame_h)
  let score : ℚ :=
    if coverage < 0.15 then coverage / 0.15 * 0.6
    else if coverage > 0.7 then max 0.3 (1.0 - (coverage - 0.7) / 0.3)
    else 0.6 + min ((coverage - 0.15) / (0.7 - 0.15)) 0.4 * 1.0
  max 0.0 (min 1.0 score)

/-- PersonDetectionMetric._calculate_center_focus (lines 119-142). -/
def calculate_center_focus (sqrtQ : ℚ → ℚ) (x y box_w box_h frame_w frame_h : ℕ) : ℚ :=
  let person_center_x : ℚ := x + (box_w : ℚ) / 2
  let person_center_y : ℚ := y + (box_h : ℚ) / 2
  let dist_x := |person_center_x - (frame_w : ℚ) / 2| / ((frame_w : ℚ) / 2)
  let dist_y := |person_center_y - (frame_h : ℚ) / 2| / ((frame_h : ℚ) / 2)
  max 0.0 (1.0 - sqrtQ (dist_x ^ 2 + dist_y ^ 2) * 0.8)

/-- PersonDetectionMetric.calculate (lines 36-91): exceptions anywhere in
the try block yield (0.5, 0.5); an empty detection list yields (0.0, 0.0);
otherwise the largest box (np.argmax keeps the first maximum) is scaled
back by 2 and scored against the original frame size. -/
def person_detection_calculate (sqrtQ : ℚ → ℚ) (h w : ℕ) (det : HogOutcome) : ℚ × ℚ :=
  match det with
  | .raised => (0.5, 0.5)
  | .detections boxes =>
    match boxes with
    | [] => (0.0, 0.0)
    | b :: bs =>
      let best := bs.foldl (fun acc c => if c.w * c.h > acc.w * acc.h then c else acc) b
      (calculate_person_score (2 * best.w) (2 * best.h) w h,
        calculate_center_focus sqrtQ (2 * best.x) (2 * best.y) (2 * best.w) (2 * best.h) w h)

/-- C7 counterexample: on a 100x100 frame the exception branch returns
(0.5, 0.5) while the no-detection branch returns (0.0, 0.0): the two
branches are not equal. -/
theorem person_detection_branches_differ_counterexample :
    person_detection_calculate (fun q => q) 100 100 .raised ≠
      person_detection_calculate (fun q => q) 100 100 (.detections []) := by
  norm_num [person_detection_calculate, Prod.ext_iff]

/-- C7 amended: a caught detector exception yields the neutral (0.5, 0.5)
while zero detections yield (0.0, 0.0); the two cases are therefore
distinguishable at the aggregation layer, not identical as claimed. -/
theorem person_detection_failure_vs_none (sqrtQ : ℚ → ℚ) (h w : ℕ) :
    person_detection_calculate sqrtQ h w .raised = (0.5, 0.5) ∧
      person_detection_calculate sqrtQ h w (.detections []) = (0.0, 0.0) ∧
      person_detection_calculate sqrtQ h w .raised ≠
        person_detection_calculate sqrtQ h w (.detections []) := by
  refine ⟨rfl, rfl, ?_⟩
  norm_num [person_detection_calculate, Prod.ext_iff]

/-! ## Frame sampling loop (src/core/segment_processor.py lines 32-158)

The loop body calls the MetricsManager once per sampled frame; the manager
methods are collaborator calls from the loop's point of view, so they are
the fields of an oracle structure, generic in the frame type and in each
family's result type: process_segment instantiates the result types with
the judgment structures above, and the sampling theorems instantiate them
with index-revealing tags. -/

/-- The MetricsManager calls the loop makes (src/core/metrics_manager.py
lines 100-160), one field per calculate_* method used by process_segment. -/
structure MetricsOracle (α β p mv st fo li gr ex fr : Type) where
  calculate_sharpness : α → β
  calculate_brightness : α → β
  calculate_contrast : α → β
  calculate_color_vibrancy : α → β
  calculate_composition : α → β
  calculate_motion : α → α → β
  calculate_person_detection : α → p × p
  calculate_camera_movement : α → α → mv
  calculate_stabilization : α → α → st
  calculate_focus_change : α → α → fo
  calculate_lighting_type : α → li
  calculate_color_grading : α → gr
  calculate_exposure : α → ex
  calculate_shot_framing : α → fr

/-- The per-frame score lists process_segment accumulates (lines 47-64),
one field per Python local list, in source order. -/
@[ext]
structure CollectedData (β p mv st fo li gr ex fr : Type) where
  sharpness_scores : List β := []
  brightness_scores : List β := []
  contrast_scores : List β := []
  color_scores : List β := []
  motion_scores : List β := []
  composition_scores : List β := []
  person_scores : List p := []
  center_focus_scores : List p := []
  camera_movements : List mv := []
  stabilization_data : List st := []
  focus_data : List fo := []
  lighting_data : List li := []
  color_grading_data : List gr := []
  exposure_data : List ex := []
  framing_data : List fr := []

/-- The frame loop of process_segment (lines 66-137): every 3rd frame gets
the cheap scalar metrics, every 6th person detection, motion needs the
retained previous sampled frame, the seven cinematic classifiers need both
the every-6th position and a previous sampled frame; the previous frame is
retained only at sampled positions. -/
def collect_frames {α β p mv st fo li gr ex fr : Type}
    (M : MetricsOracle α β p mv st fo li gr ex fr) :
    List α → ℕ → Option α → CollectedData β p mv st fo li gr ex fr
  | [], _, _ => {}
  | f :: rest, i, prev =>
    if i % 3 = 0 then
      let tail := collect_frames M rest (i + 1) (some f)
      { sharpness_scores := M.calculate_sharpness f :: tail.sharpness_scores
        brightness_scores := M.calculate_brightness f :: tail.brightness_scores
        contrast_scores := M.calculate_contrast f :: tail.contrast_scores
        color_scores := M.calculate_color_vibrancy f :: tail.color_scores
        motion_scores :=
          match prev with
          | some pf => M.calculate_motion f pf :: tail.motion_scores
          | none => tail.motion_scores
        composition_scores := M.calculate_composition f :: tail.composition_scores
        person_scores :=
          if i % 6 = 0 then (M.calculate_person_detection f).1 :: tail.person_scores
          else tail.person_scores
        center_focus_scores :=
          if i % 6 = 0 then (M.calculate_person_detection f).2 :: tail.center_focus_scores
          else tail.center_focus_scores
        camera_movements :=
          match prev with
          | some pf =>
            if i % 6 = 0 then M.calculate_camera_movement f pf :: tail.camera_movements
            else tail.camera_movements
          | none => tail.camera_movements
        stabilization_data :=
          match prev with
          | some pf =>
            if i % 6 = 0 then M.calculate_stabilization f pf :: tail.stabilization_data
            else tail.stabilization_data
          | none => tail.stabilization_data
        focus_data :=
          match prev with
          | some pf =>
            if i % 6 = 0 then M.calculate_focus_change f pf :: tail.focus_data
            else tail.focus_data
          | none => tail.focus_data
        lighting_data :=
          match prev with
          | some _ =>
            if i % 6 = 0 then M.calculate_lighting_type f :: tail.lighting_data
            else tail.lighting_data
          | none => tail.lighting_data
        color_grading_data :=
          match prev with
          | some _ =>
            if i % 6 = 0 then M.calculate_color_grading f :: tail.color_grading_data
            else tail.color_grading_data
          | none => tail.color_grading_data
        exposure_data :=
          match prev with
          | some _ =>
            if i % 6 = 0 then M.calculate_exposure f :: tail.exposure_data
            else tail.exposure_data
          | none => tail.exposure_data
        framing_data :=
          match prev with
          | some _ =>
            if i % 6 = 0 then M.calculate_shot_framing f :: tail.framing_data
            else tail.framing_data
          | none => tail.framing_data }
    else
      collect_frames M rest (i + 1) prev

/-- SegmentProcessor.process_segment (lines 32-158): run the loop from
frame 0 with no previous frame, average the basic scores with their
0.0 / 0.5 empty-list defaults, then apply the seven cinematic aggregators
in source order. -/
def process_segment {α : Type} (order : List String → List String)
    (M : MetricsOracle α ℚ ℚ MovementResult StabilizationResult FocusResult
      LightingResult GradingResult ExposureResult FramingResult)
    (frames : List α) : ScoreMetrics :=
  let c := collect_frames M frames 0 none
  let metrics : ScoreMetrics :=
    { sharpness := if c.sharpness_scores.isEmpty then 0.0 else npMean c.sharpness_scores
      brightness := if c.brightness_scores.isEmpty then 0.0 else npMean c.brightness_scores
      contrast := if c.contrast_scores.isEmpty then 0.0 else npMean c.contrast_scores
      color_vibrancy := if c.color_scores.isEmpty then 0.0 else npMean c.color_scores
      motion_score := if c.motion_scores.isEmpty then 0.0 else npMean c.motion_scores
      composition_score :=
        if c.composition_scores.isEmpty then 0.0 else npMean c.composition_scores
      person_score := if c.person_scores.isEmpty then 0.5 else npMean c.person_scores
      center_focus_score :=
        if c.center_focus_scores.isEmpty then 0.5 else npMean c.center_focus_scores }
  aggregate_framing order
    (aggregate_exposure order
      (aggregate_color_grading order
        (aggregate_lighting order
          (aggregate_focus
            (aggregate_stabilization order
              (aggregate_camera_movement order metrics c.camera_movements)
              c.stabilization_data)
            c.focus_data)
          c.lighting_data)
        c.color_grading_data)
      c.exposure_data)
    c.framing_data

/-- When no remaining position is a non-initial multiple of 6 (relative to
the incoming index, with the incoming previous-frame state), the loop
collects no cinematic judgments. -/
lemma collect_frames_cinematic_empty {α β p mv st fo li gr ex fr : Type}
    (M : MetricsOracle α β p mv st fo li gr ex fr) :
    ∀ (fs : List α) (i : ℕ) (prev : Option α),
      (∀ k, k < fs.length → (i + k) % 6 = 0 → i + k = 0 ∧ prev = none) →
      (collect_frames M fs i prev).camera_movements = [] ∧
      (collect_frames M fs i prev).stabilization_data = [] ∧
      (collect_frames M fs i prev).focus_data = [] ∧
      (collect_frames M fs i prev).lighting_data = [] ∧
      (collect_frames M fs i prev).color_grading_data = [] ∧
      (collect_frames M fs i prev).exposure_data = [] ∧
      (collect_frames M fs i prev).framing_data = [] := by
  intro fs
  induction fs with
  | nil =>
    intro i prev _
    simp [collect_frames]
  | cons f rest ih =>
    intro i prev h
    have hih : ∀ p2 : Option α,
        (collect_frames M rest (i + 1) p2).camera_movements = [] ∧
        (collect_frames M rest (i + 1) p2).stabilization_data = [] ∧
        (collect_frames M rest (i + 1) p2).focus_data = [] ∧
        (collect_frames M rest (i + 1) p2).lighting_data = [] ∧
        (collect_frames M rest (i + 1) p2).color_grading_data = [] ∧
        (collect_frames M rest (i + 1) p2).exposure_data = [] ∧
        (collect_frames M rest (i + 1) p2).framing_data = [] := by
      intro p2
      apply ih (i + 1) p2
      intro k hk h6
      have hcon := h (k + 1) (by simpa using Nat.succ_lt_succ hk)
        (by rw [show i + (k + 1) = i + 1 + k by omega]; exact h6)
      exact absurd hcon.1 (by omega)
    by_cases h3 : i % 3 = 0
    · by_cases h6 : i % 6 = 0
      · obtain ⟨hi0, hpnone⟩ := h 0 (by simp) (by simpa using h6)
        subst hpnone
        simp only [collect_frames, if_pos h3]
        exact hih (some f)
      · cases prev with
        | none =>
          simp only [collect_frames, if_pos h3]
          exact hih (some f)
        | some pf =>
          simp only [collect_frames, if_pos h3, if_neg h6]
          exact hih (some f)
    · simp only [collect_frames, if_neg h3]
      apply ih (i + 1) prev
      intro k hk h6
      have hcon := h (k + 1) (by simpa using Nat.succ_lt_succ hk)
        (by rw [show i + (k + 1) = i + 1 + k by omega]; exact h6)
      exact ⟨by omega, hcon.2⟩

/-- For a segment of at most 6 frames every cinematic-family field keeps the
ScoreMetrics dataclass default. -/
lemma process_segment_short_defaults {α : Type} (order : List String → List String)
    (M : MetricsOracle α ℚ ℚ MovementResult StabilizationResult FocusResult
      LightingResult GradingResult ExposureResult FramingResult)
    (frames : List α) (h : frames.length ≤ 6) :
    (process_segment order M frames).camera_movement_type = "Static" ∧
    (process_segment order M frames).camera_movement_quality = 0.0 ∧
    (process_segment order M frames).camera_movement_smoothness = 0.0 ∧
    (process_segment order M frames).camera_movement_confidence = 0.0 ∧
    (process_segment order M frames).stabilization_type = "unknown" ∧
    (process_segment order M frames).stabilization_score = 0.0 ∧
    (process_segment order M frames).focus_has_change = false ∧
    (process_segment order M frames).focus_change_amount = 0.0 ∧
    (process_segment order M frames).focus_sharpness = 0.0 ∧
    (process_segment order M frames).focus_has_bokeh = false ∧
    (process_segment order M frames).lighting_type = "natural" ∧
    (process_segment order M frames).lighting_quality = 0.0 ∧
    (process_segment order M frames).lighting_is_dramatic = false ∧
    (process_segment order M frames).color_grading_style = "neutral" ∧
    (process_segment order M frames).color_grading_strength = 0.0 ∧
    (process_segment order M frames).color_saturation = 0.0 ∧
    (process_segment order M frames).color_warmth = 0.0 ∧
    (process_segment order M frames).exposure_quality = "properly_exposed" ∧
    (process_segment order M frames).exposure_score = 0.0 ∧
    (process_segment order M frames).exposure_is_well_exposed = true ∧
    (process_segment order M frames).shot_framing_type = "medium" ∧
    (process_segment order M frames).shot_composition_score = 0.0 ∧
    (process_segment order M frames).shot_follows_rule_of_thirds = false := by
  obtain ⟨h1, h2, h3, h4, h5, h6e, h7⟩ :=
    collect_frames_cinematic_empty M frames 0 none
      (fun k hk h6 => ⟨by omega, rfl⟩)
  simp only [process_segment, h1, h2, h3, h4, h5, h6e, h7]
  simp [aggregate_camera_movement, aggregate_stabilization, aggregate_focus,
    aggregate_lighting, aggregate_color_grading, aggregate_exposure, aggregate_framing]

/-- Oracle returning fixed neutral judgments, used for concrete runs. -/
def constOracle : MetricsOracle ℕ ℚ ℚ MovementResult StabilizationResult FocusResult
    LightingResult GradingResult ExposureResult FramingResult :=
  { calculate_sharpness := fun _ => 0
    calculate_brightness := fun _ => 0
    calculate_contrast := fun _ => 0
    calculate_color_vibrancy := fun _ => 0
    calculate_composition := fun _ => 0
    calculate_motion := fun _ _ => 0
    calculate_person_detection := fun _ => (0, 0)
    calculate_camera_movement := fun _ _ => mkMovement "Static"
    calculate_stabilization := fun _ _ =>
      { stabilization_type := "unknown", stabilization_score := 0.5, motion_consistency := 0 }
    calculate_focus_change := fun _ _ => focus_change_calculate 0 [] [] none
    calculate_lighting_type := fun _ =>
      { dominant_type := "natural", confidence_scores := [], all_types := [],
        brightness := 0, contrast := 0, is_warm := false, is_cool := false,
        is_dramatic := false, quality_score := 0 }
    calculate_color_grading := fun _ => color_grading_calculate 0 0 0 none
    calculate_exposure := fun _ => mkExposure "properly_exposed" true
    calculate_shot_framing := fun _ =>
      { shot_size := "medium", subject_ratio := 0, composition_score := 0,
        rule_of_thirds_score := 0, has_good_composition := false,
        follows_rule_of_thirds := false } }

/-- C6 counterexample: a one-frame segment yields zero exposure judgments,
and the exposure family is then left at exposure_quality
"properly_exposed" and exposure_is_well_exposed true: the best-case values
of that family, not neutral unknown-style ones. -/
theorem process_segment_exposure_default_counterexample :
    ([0] : List ℕ).length ≤ 6 ∧
      (process_segment dedupOrder constOracle [0]).exposure_quality = "properly_exposed" ∧
      (process_segment dedupOrder constOracle [0]).exposure_is_well_exposed = true := by
  refine ⟨by simp, ?_, ?_⟩
  · exact (process_segment_short_defaults dedupOrder constOracle [0] (by simp)).2.2.2.2.2.2.2.2.2.2.2.2.2.2.2.2.2.1
  · exact (process_segment_short_defaults dedupOrder constOracle [0] (by simp)).2.2.2.2.2.2.2.2.2.2.2.2.2.2.2.2.2.2.2.1

/-- C6 amended: a segment with at most 6 frames yields zero cinematic
judgments and every cinematic-family field keeps its dataclass default:
0.0 scalars with "Static", "unknown", "natural", "neutral", "medium"
labels and false flags, except that the exposure family defaults are the
best-case values "properly_exposed" and is-well-exposed true, not neutral
unknown-style ones. -/
theorem process_segment_empty_family_defaults {α : Type}
    (order : List String → List String)
    (M : MetricsOracle α ℚ ℚ MovementResult StabilizationResult FocusResult
      LightingResult GradingResult ExposureResult FramingResult)
    (frames : List α) (h : frames.length ≤ 6) :
    (process_segment order M frames).camera_movement_type = "Static" ∧
    (process_segment order M frames).stabilization_type = "unknown" ∧
    (process_segment order M frames).stabilization_score = 0.0 ∧
    (process_segment order M frames).focus_has_change = false ∧
    (process_segment order M frames).lighting_type = "natural" ∧
    (process_segment order M frames).color_grading_style = "neutral" ∧
    (process_segment order M frames).shot_framing_type = "medium" ∧
    (process_segment order M frames).exposure_quality = "properly_exposed" ∧
    (process_segment order M frames).exposure_is_well_exposed = true := by
  obtain ⟨c1, _, _, _, c5, c6, c7, _, _, c10, c11, _, _, c14, _, _, _, c18, _, c20, c21, _, _⟩ :=
    process_segment_short_defaults order M frames h
  exact ⟨c1, c5, c6, c7, c11, c14, c21, c18, c20⟩

/-- C6 witness: the amended statement holds for a concrete one-frame run. -/
theorem process_segment_empty_family_defaults_witness :
    ([0] : List ℕ).length ≤ 6 ∧
      (process_segment dedupOrder constOracle [0]).camera_movement_type = "Static" :=
  ⟨by simp,
    (process_segment_empty_family_defaults dedupOrder constOracle [0] (by simp)).1⟩

/-! ## Sampling-tier characterization (C8)

To state which frames each metric family runs on, the loop is instantiated
with the frame type ℕ (a frame is its index) and an oracle that records
its arguments: scalar calls record (frame, previous frame?) and cinematic
calls record the (frame, previous frame) pair. -/

/-- Argument-recording oracle over index frames. -/
def tagOracle : MetricsOracle ℕ (ℕ × Option ℕ) ℕ (ℕ × ℕ) (ℕ × ℕ) (ℕ × ℕ) ℕ ℕ ℕ ℕ :=
  { calculate_sharpness := fun f => (f, none)
    calculate_brightness := fun f => (f, none)
    calculate_contrast := fun f => (f, none)
    calculate_color_vibrancy := fun f => (f, none)
    calculate_composition := fun f => (f, none)
    calculate_motion := fun f pf => (f, some pf)
    calculate_person_detection := fun f => (f, f)
    calculate_camera_movement := fun f pf => (f, pf)
    calculate_stabilization := fun f pf => (f, pf)
    calculate_focus_change := fun f pf => (f, pf)
    calculate_lighting_type := fun f => f
    calculate_color_grading := fun f => f
    calculate_exposure := fun f => f
    calculate_shot_framing := fun f => f }

/-- The retained previous sampled frame when the loop reaches index s
having started from 0: none before the first sampled frame, otherwise the
largest multiple of 3 below s. -/
def prevOf (s : ℕ) : Option ℕ :=
  if s = 0 then none else some (3 * ((s - 1) / 3))

lemma prevOf_succ_sampled (s : ℕ) (h : s % 3 = 0) : prevOf (s + 1) = some s := by
  unfold prevOf
  rw [if_neg (by omega)]
  congr 1
  omega

lemma prevOf_succ_skipped (s : ℕ) (h : s % 3 ≠ 0) : prevOf (s + 1) = prevOf s := by
  unfold prevOf
  rw [if_neg (by omega), if_neg (by omega)]
  congr 1
  omega

lemma prevOf_sampled_pos (s : ℕ) (h3 : s % 3 = 0) (h0 : s ≠ 0) :
    prevOf s = some (s - 3) := by
  unfold prevOf
  rw [if_neg h0]
  congr 1
  omega

/-- The sampling policy as the spec words it, per tier over a list of frame
indices: cheap scalars on i mod 3 = 0; person detection on i mod 6 = 0;
motion on i mod 3 = 0 frames other than frame 0, against the previous
sampled frame i - 3; the seven cinematic families on i mod 6 = 0 frames
other than frame 0, against the previous sampled frame i - 3. -/
def specTiers (l : List ℕ) : CollectedData (ℕ × Option ℕ) ℕ (ℕ × ℕ) (ℕ × ℕ) (ℕ × ℕ) ℕ ℕ ℕ ℕ :=
  { sharpness_scores := (l.filter (fun i => decide (i % 3 = 0))).map (fun i => (i, none))
    brightness_scores := (l.filter (fun i => decide (i % 3 = 0))).map (fun i => (i, none))
    contrast_scores := (l.filter (fun i => decide (i % 3 = 0))).map (fun i => (i, none))
    color_scores := (l.filter (fun i => decide (i % 3 = 0))).map (fun i => (i, none))
    motion_scores :=
      (l.filter (fun i => decide (i % 3 = 0 ∧ i ≠ 0))).map (fun i => (i, some (i - 3)))
    composition_scores := (l.filter (fun i => decide (i % 3 = 0))).map (fun i => (i, none))
    person_scores := l.filter (fun i => decide (i % 6 = 0))
    center_focus_scores := l.filter (fun i => decide (i % 6 = 0))
    camera_movements :=
      (l.filter (fun i => decide (i % 6 = 0 ∧ i ≠ 0))).map (fun i => (i, i - 3))
    stabilization_data :=
      (l.filter (fun i => decide (i % 6 = 0 ∧ i ≠ 0))).map (fun i => (i, i - 3))
    focus_data :=
      (l.filter (fun i => decide (i % 6 = 0 ∧ i ≠ 0))).map (fun i => (i, i - 3))
    lighting_data := l.filter (fun i => decide (i % 6 = 0 ∧ i ≠ 0))
    color_grading_data := l.filter (fun i => decide (i % 6 = 0 ∧ i ≠ 0))
    exposure_data := l.filter (fun i => decide (i % 6 = 0 ∧ i ≠ 0))
    framing_data := l.filter (fun i => decide (i % 6 = 0 ∧ i ≠ 0)) }

/-- The loop on the index range starting at s, entered with the retained
previous frame prevOf s, collects exactly the spec tiers. -/
lemma collect_range' (len : ℕ) : ∀ s : ℕ,
    collect_frames tagOracle (List.range' s len) s (prevOf s) =
      specTiers (List.range' s len) := by
  induction len with
  | zero =>
    intro s
    simp [collect_frames, specTiers]
  | succ len ih =>
    intro s
    rw [List.range'_succ]
    by_cases h3 : s % 3 = 0
    · simp only [collect_frames]
      rw [if_pos h3]
      rw [show (some s : Option ℕ) = prevOf (s + 1) from (prevOf_succ_sampled s h3).symm]
      rw [ih (s + 1)]
      by_cases h0 : s = 0
      · subst h0
        simp [prevOf, specTiers, List.filter_cons, tagOracle]
      · by_cases h6 : s % 6 = 0
        · rw [prevOf_sampled_pos s h3 h0]
          simp [specTiers, List.filter_cons, tagOracle, h3, h6, h0]
        · rw [prevOf_sampled_pos s h3 h0]
          simp [specTiers, List.filter_cons, tagOracle, h3, h6, h0]
    · simp only [collect_frames]
      rw [if_neg h3]
      rw [← prevOf_succ_skipped s h3, ih (s + 1)]
      have h6 : ¬s % 6 = 0 := by omega
      simp [specTiers, List.filter_cons, h3, h6]

/-- C8: running the loop from frame 0 with no previous frame over frames
0..n-1, the cheap scalar metrics are computed exactly on the i mod 3 = 0
frames, person detection exactly on the i mod 6 = 0 frames, the motion
score exactly on the i mod 3 = 0 frames other than frame 0 (against the
previous sampled frame i - 3), and the seven cinematic classifiers exactly
on the i mod 6 = 0 frames other than frame 0 (against frame i - 3). -/
theorem sampling_tiers (n : ℕ) :
    collect_frames tagOracle (List.range n) 0 none = specTiers (List.range n) := by
  rw [List.range_eq_range', show (none : Option ℕ) = prevOf 0 from rfl]
  exact collect_range' n 0

end VideoIndex
